import Mathlib

/-
  Verification of the request/response client runtime of python-apmecclient
  (apmecclient/v1_0/client.py), shallowly embedded in Lean 4.

  Modelling conventions:
  * `PyVal` models the Python values that flow through the client: None,
    booleans, integers, strings, lists, and string-keyed dictionaries
    (represented as association lists with unique keys).
  * Exceptions are modelled as values: a function that "always raises"
    returns a `RaisedExc`; fallible operations return `Except`/`Option`.
  * The HTTP transport (apmecclient/client.py construct_http_client) is an
    external collaborator: its response is an input (status code, reason
    phrase, raw body) to `do_request`, and in the retry model each transport
    attempt's outcome is an input (`outcomes : Nat → AttemptOutcome`).
  * The wire-format parser (apmecclient/common/serializer.py, not under src)
    is abstracted as `parse : String → Option PyVal`, `none` modelling a
    parse exception.
-/

namespace Apmec

/-- Model of the Python values handled by the client runtime. -/
inductive PyVal where
  | none : PyVal
  | bool : Bool → PyVal
  | int : Int → PyVal
  | str : String → PyVal
  | list : List PyVal → PyVal
  | dict : List (String × PyVal) → PyVal
  deriving Repr

/-- Python `dict.__getitem__` / `dict.get` lookup on the association-list
model of a dictionary (keys are unique, first match wins). -/
def dictGet (d : List (String × PyVal)) (k : String) : Option PyVal :=
  List.lookup k d

/-- Python truthiness of a value (`if x:`). -/
def truthy : PyVal → Bool
  | .none => false
  | .bool b => b
  | .int n => n != 0
  | .str s => s != ""
  | .list l => !l.isEmpty
  | .dict d => !d.isEmpty

/-- A single-quote character, used by the Python `repr` of strings. -/
def sq : String := String.singleton (Char.ofNat 39)

mutual

/-- Python `repr` of a value (as used by `str()` on containers).
Escaping of quotes inside strings is not modelled. -/
def pyRepr : PyVal → String
  | .none => "None"
  | .bool true => "True"
  | .bool false => "False"
  | .int n => toString n
  | .str s => sq ++ s ++ sq
  | .list l => "[" ++ pyReprList l ++ "]"
  | .dict d => "\x7b" ++ pyReprDict d ++ "\x7d"

/-- `repr` of the elements of a Python list, comma separated. -/
def pyReprList : List PyVal → String
  | [] => ""
  | [v] => pyRepr v
  | v :: rest => pyRepr v ++ ", " ++ pyReprList rest

/-- `repr` of the entries of a Python dict, comma separated. -/
def pyReprDict : List (String × PyVal) → String
  | [] => ""
  | [(k, v)] => sq ++ k ++ sq ++ ": " ++ pyRepr v
  | (k, v) :: rest => sq ++ k ++ sq ++ ": " ++ pyRepr v ++ ", " ++ pyReprDict rest

end

/-- Python `str()` of a value, as used by `"%s" % x` formatting. -/
def pyStr : PyVal → String
  | .str s => s
  | v => pyRepr v

/-- Python `==` comparison of an arbitrary value against a `str`:
true exactly when the value is an equal string (comparing a non-string
against a string is `False`, not an error). -/
def eqStr : PyVal → String → Bool
  | .str t, s => t == s
  | _, _ => false

/-- The kind of exception raised by the error-classification boundary. -/
inductive ExcKind where
  | classified (name : String)
  | generic
  | serializerError
  deriving Repr

/-- An exception raised by the client runtime: its kind, the HTTP status
code it carries, and its message (a Python value: normally a string, but
the `bad_apmec_error_flag` path of `exception_handler_v10` passes the
whole error dict as the message). -/
structure RaisedExc where
  kind : ExcKind
  status_code : Nat
  message : PyVal
  deriving Repr

/-- The `try` block of `exception_handler_v10` (client.py lines 53-59):
extract `type` and `message` from the `ApmecError` dict and append a
truthy `detail` to the message on its own line.  Returns `none` when the
block raises (missing key, indexing a non-dict, or concatenating
non-strings), which sets `bad_apmec_error_flag` in the source. -/
def extract_apmec_error : PyVal → Option (PyVal × PyVal)
  | .dict d =>
    match dictGet d "type" with
    | Option.none => Option.none
    | some t =>
      match dictGet d "message" with
      | Option.none => Option.none
      | some m =>
        match dictGet d "detail" with
        | Option.none => Option.none
        | some det =>
          if truthy det then
            match m, det with
            | .str ms, .str ds => some (t, .str (ms ++ "\n" ++ ds))
            | _, _ => Option.none
          else some (t, m)
  | _ => Option.none

/-- Modelled from the spec: `exceptions.HTTP_EXCEPTION_MAP`
(apmecclient/common/exceptions.py is not under src).  Per spec section 4.3
it is a status-code-indexed default kind table, e.g. 404 to NotFound, 401
to Unauthorized, 409 to Conflict, 5xx to ServiceError; the exact table is
external configuration. -/
def HTTP_EXCEPTION_MAP : Nat → Option String := fun sc =>
  if sc = 404 then some "NotFound"
  else if sc = 401 then some "Unauthorized"
  else if sc = 409 then some "Conflict"
  else if 500 ≤ sc ∧ sc ≤ 599 then some "ServiceError"
  else Option.none

/-- `exception_handler_v10` (client.py lines 36-86).  `registered`
abstracts `getattr(exceptions, '%sClient' % error_type, None)` — whether a
client exception class of that name is defined in the (absent from src)
exceptions module; `httpMap` abstracts `exceptions.HTTP_EXCEPTION_MAP.get`.
The source function always raises; the model returns the raised
exception. -/
def exception_handler_v10 (registered : String → Bool)
    (httpMap : Nat → Option String) (status_code : Nat)
    (error_content : PyVal) : RaisedExc :=
  let error_dict : PyVal :=
    match error_content with
    | .dict d => (dictGet d "ApmecError").getD .none
    | _ => .none
  if truthy error_dict then
    match extract_apmec_error error_dict with
    | some (t, msg) =>
      let name := pyStr t ++ "Client"
      if registered name then ⟨.classified name, status_code, msg⟩
      else
        match httpMap status_code with
        | some hname => ⟨.classified hname, status_code, msg⟩
        | Option.none => ⟨.generic, status_code, msg⟩
    | Option.none => ⟨.generic, status_code, error_dict⟩
  else
    let message : PyVal :=
      match error_content with
      | .dict d => (dictGet d "message").getD .none
      | _ => .none
    if truthy message then ⟨.generic, status_code, message⟩
    else ⟨.generic, status_code,
          .str (toString status_code ++ "-" ++ pyStr error_content)⟩

/-- Modelled from the spec: `Serializer.deserialize` (serializer.py is not
under src).  Per spec section 4.2 it parses the raw body according to the
current format and returns the inner `body` substructure: the parsed
payload is wrapped as `{'body': parsed}` and `['body']` is taken.  `parse`
abstracts the format-specific parser; `none` models a parse exception. -/
def serializer_deserialize (parse : String → Option PyVal)
    (data : String) : Option PyVal :=
  (parse data).bind (fun body => dictGet [("body", body)] "body")

/-- `ClientBase.deserialize` (client.py lines 229-234): status 204 returns
the data unchanged, otherwise the serializer parses it. -/
def deserialize (parse : String → Option PyVal) (data : String)
    (status_code : Nat) : Option PyVal :=
  if status_code = 204 then some (.str data)
  else serializer_deserialize parse data

/-- The transport-level response: HTTP status code and reason phrase.
The raw body is passed separately. -/
structure HttpResponse where
  status_code : Nat
  reason : String

/-- `ClientBase._handle_fault_response` (client.py lines 172-183): try to
deserialize the error body; on failure fall back to `{'message': body}`;
then invoke the error classifier (which always raises). -/
def handle_fault_response (registered : String → Bool)
    (httpMap : Nat → Option String) (parse : String → Option PyVal)
    (status_code : Nat) (response_body : String) : RaisedExc :=
  let des_error_body : PyVal :=
    match deserialize parse response_body status_code with
    | some v => v
    | Option.none => .dict [("message", .str response_body)]
  exception_handler_v10 registered httpMap status_code des_error_body

/-- `ClientBase.do_request` (client.py lines 185-209), response-handling
half.  The request-building half (format suffix, version prefix, query
encoding, body serialization) feeds the external transport, whose response
`(resp, replybody)` is an input here.  On status 200/201/202/204 the body
is deserialized and returned; otherwise the body (or, when falsy/empty,
the reason phrase) goes to `_handle_fault_response`, which raises. -/
def do_request (registered : String → Bool)
    (httpMap : Nat → Option String) (parse : String → Option PyVal)
    (resp : HttpResponse) (replybody : String) : Except RaisedExc PyVal :=
  if resp.status_code = 200 ∨ resp.status_code = 201 ∨
      resp.status_code = 202 ∨ resp.status_code = 204 then
    match deserialize parse replybody resp.status_code with
    | some v => Except.ok v
    | Option.none => Except.error ⟨.serializerError, resp.status_code, .str replybody⟩
  else
    let body2 := if replybody = "" then resp.reason else replybody
    Except.error (handle_fault_response registered httpMap parse
      resp.status_code body2)

/-- Outcome of one transport attempt made by `do_request` as seen by
`retry_request`: a returned value, a `ConnectionFailed` (the only
exception the retry loop catches) with its reason, or any other
exception (an API error), which the loop does not catch. -/
inductive AttemptOutcome where
  | success (v : PyVal)
  | connectionFailed (reason : String)
  | otherError (e : RaisedExc)
  deriving Repr

/-- Final outcome of `retry_request`: a value, a `ConnectionFailed`
carrying a reason, or a propagated non-connectivity exception. -/
inductive RetryOutcome where
  | ok (v : PyVal)
  | connFail (reason : String)
  | otherExc (e : RaisedExc)
  deriving Repr

/-- Observable result of `retry_request`: how many `do_request` calls were
made, how many fixed-interval sleeps occurred between attempts, and the
final outcome. -/
structure RetryResult where
  attempts : Nat
  sleeps : Nat
  outcome : RetryOutcome
  deriving Repr

/-- `self.retry_interval` (client.py line 170): the fixed sleep interval,
in seconds, between consecutive retry attempts. -/
def retry_interval : Nat := 1

/-- The message of the summarizing `ConnectionFailed` raised after the
retry loop (client.py lines 277-283): it names the attempt count only
when `self.retries` is truthy (nonzero). -/
def summary_msg (retries : Nat) : String :=
  if retries ≠ 0 then
    s!"Failed to connect to Apmec server after {retries + 1} attempts"
  else "Failed to connect Apmec server"

/-- The `for i in range(max_attempts)` loop of `ClientBase.retry_request`
(client.py lines 257-283).  `i` is the current loop index, `remaining` the
iterations left (`retries + 1 - i`), `attempts`/`sleeps` the counts so
far.  A success returns; a `ConnectionFailed` sleeps and continues while
`i < retries`, re-raises when `raise_errors` is set, and otherwise lets
the loop end; any other exception propagates uncaught.  When the loop
ends, the summarizing `ConnectionFailed` is raised. -/
def retry_go (outcomes : Nat → AttemptOutcome) (retries : Nat)
    (raise_errors : Bool) : Nat → Nat → Nat → Nat → RetryResult
  | _, 0, attempts, sleeps =>
    ⟨attempts, sleeps, .connFail (summary_msg retries)⟩
  | i, remaining + 1, attempts, sleeps =>
    match outcomes i with
    | .success v => ⟨attempts + 1, sleeps, .ok v⟩
    | .otherError e => ⟨attempts + 1, sleeps, .otherExc e⟩
    | .connectionFailed reason =>
      if i < retries then
        retry_go outcomes retries raise_errors (i + 1) remaining
          (attempts + 1) (sleeps + 1)
      else if raise_errors then ⟨attempts + 1, sleeps, .connFail reason⟩
      else
        retry_go outcomes retries raise_errors (i + 1) remaining
          (attempts + 1) sleeps

/-- `ClientBase.retry_request` (client.py lines 257-283). -/
def retry_request (outcomes : Nat → AttemptOutcome) (retries : Nat)
    (raise_errors : Bool) : RetryResult :=
  retry_go outcomes retries raise_errors 0 (retries + 1) 0 0

/-- `ClientBase.get` (client.py lines 289-291): GET goes through
`retry_request`. -/
def get (outcomes : Nat → AttemptOutcome) (retries : Nat)
    (raise_errors : Bool) : RetryResult :=
  retry_request outcomes retries raise_errors

/-- `ClientBase.put` (client.py lines 298-300): PUT goes through
`retry_request`. -/
def put (outcomes : Nat → AttemptOutcome) (retries : Nat)
    (raise_errors : Bool) : RetryResult :=
  retry_request outcomes retries raise_errors

/-- `ClientBase.delete` (client.py lines 285-287): DELETE goes through
`retry_request`. -/
def delete (outcomes : Nat → AttemptOutcome) (retries : Nat)
    (raise_errors : Bool) : RetryResult :=
  retry_request outcomes retries raise_errors

/-- `ClientBase.post` (client.py lines 293-296): POST calls `do_request`
directly, exactly once, regardless of the configured retry count; any
exception propagates immediately. -/
def post (outcomes : Nat → AttemptOutcome) (_retries : Nat)
    (_raise_errors : Bool) : RetryResult :=
  ⟨1, 0,
    match outcomes 0 with
    | .success v => .ok v
    | .connectionFailed r => .connFail r
    | .otherError e => .otherExc e⟩

/-- The HTTP methods exposed by `ClientBase`. -/
inductive HttpMethod where
  | GET
  | PUT
  | DELETE
  | POST
  deriving Repr, DecidableEq

/-- Dispatch a request through the `ClientBase` method for the given HTTP
verb. -/
def request_by_method (m : HttpMethod) (outcomes : Nat → AttemptOutcome)
    (retries : Nat) (raise_errors : Bool) : RetryResult :=
  match m with
  | .GET => get outcomes retries raise_errors
  | .PUT => put outcomes retries raise_errors
  | .DELETE => delete outcomes retries raise_errors
  | .POST => post outcomes retries raise_errors

/-- Query parameters, as the Python dict passed to `get` and rebuilt from
a link's href by `urlparse.parse_qs`. -/
abbrev Params := List (String × PyVal)

/-- What the link-scanning block at the bottom of `ClientBase._pagination`
decides for the current page: stop the loop, continue with new params, or
raise an uncaught (non-KeyError) exception. -/
inductive StepResult where
  | stop
  | more (params : Params)
  | err
  deriving Repr

/-- The `for link in res['%s_links' % collection]` loop (client.py lines
322-327), wrapped in `try ... except KeyError: break`.  A missing `rel`
or `href` key raises KeyError, caught by the handler, hence `stop`; the
first link whose `rel` equals the active direction yields the params
parsed from its href (`hrefToParams` abstracts
`urlparse.parse_qs(urlparse.urlparse(href).query)`); indexing a non-dict
link or parsing a non-string href raises an uncaught error. -/
def scan_links (hrefToParams : String → Params) (linkrel : String) :
    List PyVal → StepResult
  | [] => .stop
  | link :: rest =>
    match link with
    | .dict d =>
      match dictGet d "rel" with
      | Option.none => .stop
      | some relv =>
        if eqStr relv linkrel then
          match dictGet d "href" with
          | Option.none => .stop
          | some (.str href) => .more (hrefToParams href)
          | some _ => .err
        else scan_links hrefToParams linkrel rest
    | _ => .err

/-- One pagination step on a fetched page (client.py lines 320-329):
a missing `'<collection>_links'` key raises KeyError, caught, ending the
loop; a list value is scanned by `scan_links`; iterating an empty string
or empty dict yields nothing (loop ends); iterating any other non-list
value errors when a link element is indexed. -/
def page_step (hrefToParams : String → Params) (collection linkrel : String)
    (res : PyVal) : StepResult :=
  match res with
  | .dict d =>
    match dictGet d (collection ++ "_links") with
    | Option.none => .stop
    | some (.list links) => scan_links hrefToParams linkrel links
    | some (.str "") => .stop
    | some (.dict []) => .stop
    | some _ => .err
  | _ => .err

/-- Result of driving `_pagination` to completion: the pages fetched and
the number of GET requests issued, an uncaught exception, or a failure to
terminate within the fuel bound (the source loop has no cycle guard). -/
inductive PagResult where
  | pages (ps : List PyVal) (nreq : Nat)
  | err
  | diverge
  deriving Repr

/-- The `while next:` loop of `ClientBase._pagination` (client.py lines
316-329).  `server path n params` models the (successful) GET for the
`n`-th request; `fuel` bounds the number of iterations, since the source
loop is unbounded. -/
def pagination_go (server : String → Nat → Params → PyVal)
    (hrefToParams : String → Params) (collection linkrel path : String) :
    Nat → Nat → Params → PagResult
  | 0, _, _ => .diverge
  | fuel + 1, n, params =>
    let res := server path n params
    match page_step hrefToParams collection linkrel res with
    | .stop => .pages [res] 1
    | .err => .err
    | .more params2 =>
      match pagination_go server hrefToParams collection linkrel path
          fuel (n + 1) params2 with
      | .pages ps m => .pages (res :: ps) (m + 1)
      | other => other

/-- `ClientBase._pagination` (client.py lines 311-329): the direction is
`'previous'` when `params.get('page_reverse', False)` is truthy, else
`'next'`; then the page loop runs. -/
def pagination (server : String → Nat → Params → PyVal)
    (hrefToParams : String → Params) (collection path : String)
    (params : Params) (fuel : Nat) : PagResult :=
  let linkrel :=
    if truthy ((dictGet params "page_reverse").getD (.bool false)) then
      "previous"
    else "next"
  pagination_go server hrefToParams collection linkrel path fuel 0 params

/-- The `res.extend(r[collection])` accumulation of `ClientBase.list`
(client.py lines 304-306): each page must be a dict carrying the
collection key; a missing key or a non-list value is modelled as an
error (`r[collection]` raises KeyError there). -/
def collect_items (collection : String) : List PyVal → Option (List PyVal)
  | [] => some []
  | page :: rest =>
    match page with
    | .dict d =>
      match dictGet d collection with
      | some (.list items) =>
        (collect_items collection rest).map (fun acc => items ++ acc)
      | _ => Option.none
    | _ => Option.none

/-- `ClientBase.list` with `retrieve_all=True` (client.py lines 302-307):
drive `_pagination` to completion, concatenate every page's items, and
return `{collection: res}`. -/
def list_retrieve_all (server : String → Nat → Params → PyVal)
    (hrefToParams : String → Params) (collection path : String)
    (params : Params) (fuel : Nat) : Option PyVal :=
  match pagination server hrefToParams collection path params fuel with
  | .pages ps _ =>
    (collect_items collection ps).map
      (fun items => .dict [(collection, .list items)])
  | _ => Option.none

/-- The `with_params` wrapper produced by the `APIParamsCall` decorator
(client.py lines 89-103).  The wrapped call is modelled as a state
transformer on `instance.format`: it receives the format in force and
reports its result together with the format it leaves behind.  The
wrapper snapshots the format, applies a `format` keyword override if one
is present, runs the call, and restores the snapshot only on normal
return — when the call raises, the restore line is skipped. -/
def with_params (f : String → Except RaisedExc PyVal × String)
    (kwFormat : Option String) (fmt0 : String) :
    Except RaisedExc PyVal × String :=
  let saved := fmt0
  let fmt1 :=
    match kwFormat with
    | some v => v
    | Option.none => fmt0
  let r := f fmt1
  match r.1 with
  | Except.ok v => (Except.ok v, saved)
  | Except.error e => (Except.error e, r.2)

/-! Theorems.  Claim theorems are named `C<n>_...`; other theorems are
shared helper lemmas. -/

/-- C1: for a `do_request` call whose response status is in the success
set: on 200, 201 or 202 the deserialized body is returned and no
exception is raised; on 204 the raw body is returned unchanged with no
deserialization attempted, even when it is not valid JSON/XML (the 204
conjunct holds for every `parse`, including one that fails on the
body). -/
theorem C1_execute_success (registered : String → Bool)
    (httpMap : Nat → Option String) (parse : String → Option PyVal)
    (resp : HttpResponse) (replybody : String) :
    ((resp.status_code = 200 ∨ resp.status_code = 201 ∨
        resp.status_code = 202) →
      ∀ v, parse replybody = some v →
        do_request registered httpMap parse resp replybody = Except.ok v)
    ∧ (resp.status_code = 204 →
        do_request registered httpMap parse resp replybody =
          Except.ok (.str replybody)) := by
  constructor
  · rintro hs v hp
    have h204 : resp.status_code ≠ 204 := by
      rcases hs with h | h | h <;> simp [h]
    simp only [do_request, deserialize, serializer_deserialize]
    rw [if_pos (by tauto), if_neg h204, hp]
    simp [dictGet]
  · intro h
    simp only [do_request, deserialize]
    rw [if_pos (by tauto), if_pos h]

/-- C1 witness: the success conjuncts at concrete inputs — a 200 response
whose body parses to an envelope, and a 204 response whose raw body is
not parseable at all. -/
theorem C1_execute_success_witness :
    do_request (fun _ => false) HTTP_EXCEPTION_MAP
        (fun _ => some (.dict [("meas", .list [])])) ⟨200, "OK"⟩ "x" =
      Except.ok (.dict [("meas", .list [])])
    ∧ do_request (fun _ => false) HTTP_EXCEPTION_MAP (fun _ => Option.none)
        ⟨204, "No Content"⟩ "garbage" = Except.ok (.str "garbage") :=
  ⟨(C1_execute_success (fun _ => false) HTTP_EXCEPTION_MAP
      (fun _ => some (.dict [("meas", .list [])])) ⟨200, "OK"⟩ "x").1
      (Or.inl rfl) _ rfl,
   (C1_execute_success (fun _ => false) HTTP_EXCEPTION_MAP
      (fun _ => Option.none) ⟨204, "No Content"⟩ "garbage").2 rfl⟩

/-- C2: for a `do_request` call whose response status is outside the
success set {200, 201, 202, 204}, an exception is raised and no value is
returned; and when the response body is empty, the transport-level reason
phrase takes its place on the way to the error classifier. -/
theorem C2_execute_error (registered : String → Bool)
    (httpMap : Nat → Option String) (parse : String → Option PyVal)
    (resp : HttpResponse) (replybody : String)
    (h : ¬(resp.status_code = 200 ∨ resp.status_code = 201 ∨
        resp.status_code = 202 ∨ resp.status_code = 204)) :
    (∃ e, do_request registered httpMap parse resp replybody =
        Except.error e)
    ∧ (replybody = "" →
        do_request registered httpMap parse resp replybody =
          Except.error (handle_fault_response registered httpMap parse
            resp.status_code resp.reason)) := by
  constructor
  · exact ⟨_, by simp only [do_request]; rw [if_neg h]⟩
  · intro hb
    simp only [do_request]
    rw [if_neg h]
    simp [hb]

/-- C2 witness: a 503 response with an empty body raises the classified
exception built from the reason phrase. -/
theorem C2_execute_error_witness :
    (∃ e, do_request (fun _ => false) HTTP_EXCEPTION_MAP
        (fun _ => Option.none) ⟨503, "Service Unavailable"⟩ "" =
        Except.error e)
    ∧ do_request (fun _ => false) HTTP_EXCEPTION_MAP (fun _ => Option.none)
        ⟨503, "Service Unavailable"⟩ "" =
      Except.error (handle_fault_response (fun _ => false)
        HTTP_EXCEPTION_MAP (fun _ => Option.none) 503
        "Service Unavailable") :=
  ⟨(C2_execute_error (fun _ => false) HTTP_EXCEPTION_MAP
      (fun _ => Option.none) ⟨503, "Service Unavailable"⟩ ""
      (by decide)).1,
   (C2_execute_error (fun _ => false) HTTP_EXCEPTION_MAP
      (fun _ => Option.none) ⟨503, "Service Unavailable"⟩ ""
      (by decide)).2 rfl⟩

/-- Helper: when every transport attempt raises `ConnectionFailed`, the
retry loop makes exactly one attempt per remaining iteration, sleeps
between consecutive attempts only, and ends by re-raising the last
failure (when `raise_errors`) or raising the summary. -/
theorem retry_go_conn_fail (outcomes : Nat → AttemptOutcome)
    (reasons : Nat → String) (retries : Nat) (raise_errors : Bool)
    (hall : ∀ j, outcomes j = .connectionFailed (reasons j)) :
    ∀ r i attempts sleeps, i + r = retries + 1 → 1 ≤ r →
      retry_go outcomes retries raise_errors i r attempts sleeps =
        ⟨attempts + r, sleeps + (r - 1),
          .connFail (if raise_errors then reasons retries
            else summary_msg retries)⟩ := by
  intro r
  induction r with
  | zero => intro i attempts sleeps _ hr; omega
  | succ r ih =>
    intro i attempts sleeps hsum _
    rw [retry_go, hall i]
    by_cases hi : i < retries
    · have hr1 : 1 ≤ r := by omega
      simp only [if_pos hi]
      rw [ih (i + 1) (attempts + 1) (sleeps + 1) (by omega) hr1]
      congr 1 <;> omega
    · have hieq : i = retries := by omega
      have hr0 : r = 0 := by omega
      subst hieq
      subst hr0
      simp only [if_neg hi]
      cases raise_errors with
      | true => simp
      | false =>
        simp only [Bool.false_eq_true, if_false]
        rw [retry_go]
        simp

/-- C3: for every method in {GET, PUT, DELETE} and every configured retry
count, a `ConnectionFailed` on every transport attempt results in exactly
`retries + 1` attempts before the final error is raised, with exactly
`retries` sleeps of the fixed `retry_interval` between consecutive
attempts. -/
theorem C3_idempotent_methods_retry (m : HttpMethod)
    (outcomes : Nat → AttemptOutcome) (reasons : Nat → String)
    (retries : Nat) (raise_errors : Bool)
    (hm : m = .GET ∨ m = .PUT ∨ m = .DELETE)
    (hall : ∀ j, outcomes j = .connectionFailed (reasons j)) :
    (request_by_method m outcomes retries raise_errors).attempts =
      retries + 1
    ∧ (request_by_method m outcomes retries raise_errors).sleeps = retries
    ∧ ∃ reason, (request_by_method m outcomes retries raise_errors).outcome
        = .connFail reason := by
  have hrr : retry_request outcomes retries raise_errors =
      ⟨0 + (retries + 1), 0 + (retries + 1 - 1),
        .connFail (if raise_errors then reasons retries
          else summary_msg retries)⟩ :=
    retry_go_conn_fail outcomes reasons retries raise_errors hall
      (retries + 1) 0 0 0 (by omega) (by omega)
  rcases hm with h | h | h <;> subst h <;>
    simp [request_by_method, get, put, delete, hrr]

/-- C3 witness: a GET with retry count 2 and a connection failure on
every attempt makes exactly 3 attempts and 2 sleeps. -/
theorem C3_idempotent_methods_retry_witness :
    (request_by_method .GET (fun _ => .connectionFailed "refused") 2
        true).attempts = 3
    ∧ (request_by_method .GET (fun _ => .connectionFailed "refused") 2
        true).sleeps = 2
    ∧ ∃ reason, (request_by_method .GET
        (fun _ => .connectionFailed "refused") 2 true).outcome =
        .connFail reason :=
  C3_idempotent_methods_retry .GET (fun _ => .connectionFailed "refused")
    (fun _ => "refused") 2 true (Or.inl rfl) (fun _ => rfl)

/-- C4: for method POST, a connection failure on the first transport
attempt results in exactly one attempt, no sleep, and the same failure
propagating immediately, regardless of the configured retry count. -/
theorem C4_post_never_retried (outcomes : Nat → AttemptOutcome)
    (retries : Nat) (raise_errors : Bool) (reason : String)
    (h : outcomes 0 = .connectionFailed reason) :
    request_by_method .POST outcomes retries raise_errors =
      ⟨1, 0, .connFail reason⟩ := by
  simp [request_by_method, post, h]

/-- C4 witness: a POST with retry count 5 still fails after a single
attempt. -/
theorem C4_post_never_retried_witness :
    request_by_method .POST (fun _ => .connectionFailed "refused") 5 true =
      ⟨1, 0, .connFail "refused"⟩ :=
  C4_post_never_retried (fun _ => .connectionFailed "refused") 5 true
    "refused" rfl

/-- Helper: one unfolding of the pagination loop. -/
theorem pagination_go_succ (server : String → Nat → Params → PyVal)
    (hrefToParams : String → Params) (collection linkrel path : String)
    (fuel n : Nat) (params : Params) :
    pagination_go server hrefToParams collection linkrel path (fuel + 1)
        n params =
      match page_step hrefToParams collection linkrel
          (server path n params) with
      | .stop => .pages [server path n params] 1
      | .err => .err
      | .more params2 =>
        match pagination_go server hrefToParams collection linkrel path
            fuel (n + 1) params2 with
        | .pages ps m => .pages (server path n params :: ps) (m + 1)
        | other => other := rfl

/-- Helper: a page whose links key is absent ends the loop (the KeyError
is caught and breaks). -/
theorem page_step_no_links (hrefToParams : String → Params)
    (collection linkrel : String) (d : List (String × PyVal))
    (hl : dictGet d (collection ++ "_links") = Option.none) :
    page_step hrefToParams collection linkrel (.dict d) = .stop := by
  simp only [page_step, hl]

/-- Helper: a page whose links list is exactly one link with rel "next"
and a string href continues the loop with the params parsed from that
href. -/
theorem page_step_next (hrefToParams : String → Params)
    (collection : String) (d : List (String × PyVal)) (href : String)
    (hl : dictGet d (collection ++ "_links") =
      some (.list [.dict [("rel", .str "next"), ("href", .str href)]])) :
    page_step hrefToParams collection "next" (.dict d) =
      .more (hrefToParams href) := by
  simp only [page_step, hl]
  rfl

/-- C7 counterexample: at the claim's exact input — status 404, body
`{"ApmecError": {"type": "MeaNotFound", "message": "MEA x not found"}}`
with the `detail` field absent — `error_dict['detail']` raises KeyError
inside the `try` block, `bad_apmec_error_flag` is set, and the raised
exception is the generic `ApmecClientException` whose message is the
whole error dict, not the string `"MEA x not found"`. -/
theorem C7_counterexample :
    exception_handler_v10 (fun _ => false) HTTP_EXCEPTION_MAP 404
        (.dict [("ApmecError",
          .dict [("type", .str "MeaNotFound"),
                 ("message", .str "MEA x not found")])]) =
      ⟨.generic, 404,
        .dict [("type", .str "MeaNotFound"),
               ("message", .str "MEA x not found")]⟩
    ∧ PyVal.dict [("type", .str "MeaNotFound"),
        ("message", .str "MEA x not found")] ≠ .str "MEA x not found" :=
  ⟨rfl, fun h => PyVal.noConfusion h⟩

/-- C7 (amended): for an error response with status 404 and deserialized
body `{"ApmecError": {"type": "MeaNotFound", "message": "MEA x not
found", "detail": null}}` — the `detail` key present but null — the error
classifier raises a classified API error with status_code 404 and message
exactly `"MEA x not found"`, whichever specific exception classes are
registered (either the `MeaNotFoundClient` lookup or the 404 entry of the
status-code table supplies the class); when the `detail` key is absent
entirely, the message is the whole error dict instead. -/
theorem C7_classifier_404 (registered : String → Bool) :
    (exception_handler_v10 registered HTTP_EXCEPTION_MAP 404
        (.dict [("ApmecError",
          .dict [("type", .str "MeaNotFound"),
                 ("message", .str "MEA x not found"),
                 ("detail", .none)])])).status_code = 404
    ∧ (exception_handler_v10 registered HTTP_EXCEPTION_MAP 404
        (.dict [("ApmecError",
          .dict [("type", .str "MeaNotFound"),
                 ("message", .str "MEA x not found"),
                 ("detail", .none)])])).message = .str "MEA x not found"
    ∧ (exception_handler_v10 registered HTTP_EXCEPTION_MAP 404
        (.dict [("ApmecError",
          .dict [("type", .str "MeaNotFound"),
                 ("message", .str "MEA x not found"),
                 ("detail", .none)])])).kind ≠ .generic := by
  have hx : exception_handler_v10 registered HTTP_EXCEPTION_MAP 404
      (.dict [("ApmecError",
        .dict [("type", .str "MeaNotFound"),
               ("message", .str "MEA x not found"),
               ("detail", .none)])]) =
      (if registered "MeaNotFoundClient" then
        ⟨.classified "MeaNotFoundClient", 404, .str "MEA x not found"⟩
      else ⟨.classified "NotFound", 404, .str "MEA x not found"⟩) := rfl
  by_cases h : registered "MeaNotFoundClient" <;>
    simp [hx, h]

/-- C7 witness: the amended statement with no specific exception class
registered (the 404 entry of the status-code table classifies it). -/
theorem C7_classifier_404_witness :
    (exception_handler_v10 (fun _ => false) HTTP_EXCEPTION_MAP 404
        (.dict [("ApmecError",
          .dict [("type", .str "MeaNotFound"),
                 ("message", .str "MEA x not found"),
                 ("detail", .none)])])).status_code = 404
    ∧ (exception_handler_v10 (fun _ => false) HTTP_EXCEPTION_MAP 404
        (.dict [("ApmecError",
          .dict [("type", .str "MeaNotFound"),
                 ("message", .str "MEA x not found"),
                 ("detail", .none)])])).message = .str "MEA x not found"
    ∧ (exception_handler_v10 (fun _ => false) HTTP_EXCEPTION_MAP 404
        (.dict [("ApmecError",
          .dict [("type", .str "MeaNotFound"),
                 ("message", .str "MEA x not found"),
                 ("detail", .none)])])).kind ≠ .generic :=
  C7_classifier_404 (fun _ => false)

/-- C8: for an error response with status 500 whose deserialized body is
the plain string "internal error" (not a mapping) — e.g. a raw body that
the serializer parses to that string — `do_request` raises the generic
`ApmecClientException` with message exactly `"500-internal error"`. -/
theorem C8_generic_500 (registered : String → Bool)
    (httpMap : Nat → Option String) (parse : String → Option PyVal)
    (resp : HttpResponse) (replybody : String)
    (hsc : resp.status_code = 500) (hnb : replybody ≠ "")
    (hp : parse replybody = some (.str "internal error")) :
    do_request registered httpMap parse resp replybody =
      Except.error ⟨.generic, 500, .str "500-internal error"⟩ := by
  simp only [do_request, hsc]
  rw [if_neg (by simp), if_neg hnb]
  simp only [handle_fault_response, deserialize, serializer_deserialize,
    hp]
  norm_num [exception_handler_v10, dictGet, truthy, pyStr]
  decide

/-- C8 witness: the 500 response with the raw body parsing to the plain
string. -/
theorem C8_generic_500_witness :
    do_request (fun _ => false) HTTP_EXCEPTION_MAP
        (fun _ => some (.str "internal error")) ⟨500, "Internal Server Error"⟩
        "internal error" =
      Except.error ⟨.generic, 500, .str "500-internal error"⟩ :=
  C8_generic_500 (fun _ => false) HTTP_EXCEPTION_MAP
    (fun _ => some (.str "internal error")) ⟨500, "Internal Server Error"⟩
    "internal error" rfl (by decide) rfl

/-- C9 counterexample: with retry count 0 and `raise_errors` false, the
summarizing `ConnectionFailed` message is the plain "Failed to connect
Apmec server" — it contains no digit at all, so it does not name the
attempt count (1), contradicting the claim's "for every configured retry
count including zero". -/
theorem C9_counterexample :
    retry_request (fun _ => .connectionFailed "refused") 0 false =
      ⟨1, 0, .connFail "Failed to connect Apmec server"⟩
    ∧ "Failed to connect Apmec server".toList.any Char.isDigit = false :=
  ⟨rfl, by decide⟩

/-- C9 (amended): when `retry_request` exhausts all retries on
connectivity failures, with `raise_errors` true the last connectivity
failure is re-raised; otherwise a summarizing connectivity error is
raised whose message names the attempt count when the configured retry
count is nonzero — with retry count zero the summary is the plain
"Failed to connect Apmec server", without the attempt count. -/
theorem C9_retry_exhaustion (outcomes : Nat → AttemptOutcome)
    (reasons : Nat → String) (retries : Nat) (raise_errors : Bool)
    (hall : ∀ j, outcomes j = .connectionFailed (reasons j)) :
    (raise_errors = true →
      retry_request outcomes retries raise_errors =
        ⟨retries + 1, retries, .connFail (reasons retries)⟩)
    ∧ (raise_errors = false → retries ≠ 0 →
        retry_request outcomes retries raise_errors =
          ⟨retries + 1, retries, .connFail
            s!"Failed to connect to Apmec server after {retries + 1} attempts"⟩)
    ∧ (raise_errors = false → retries = 0 →
        retry_request outcomes retries raise_errors =
          ⟨1, 0, .connFail "Failed to connect Apmec server"⟩) := by
  have hrr : retry_request outcomes retries raise_errors =
      ⟨0 + (retries + 1), 0 + (retries + 1 - 1),
        .connFail (if raise_errors then reasons retries
          else summary_msg retries)⟩ :=
    retry_go_conn_fail outcomes reasons retries raise_errors hall
      (retries + 1) 0 0 0 (by omega) (by omega)
  refine ⟨fun hre => ?_, fun hre hr0 => ?_, fun hre hr0 => ?_⟩
  · rw [hrr, hre]
    simp
  · rw [hrr, hre]
    simp [summary_msg, hr0]
  · subst hr0
    rw [hrr, hre]
    simp [summary_msg]

/-- C9 witness: retry count 2, `raise_errors` false — the summary names
the 3 attempts. -/
theorem C9_retry_exhaustion_witness :
    retry_request (fun _ => .connectionFailed "refused") 2 false =
      ⟨3, 2, .connFail "Failed to connect to Apmec server after 3 attempts"⟩ :=
  (C9_retry_exhaustion (fun _ => .connectionFailed "refused")
    (fun _ => "refused") 2 false (fun _ => rfl)).2.1 rfl (by decide)

/-- C5: for every collection and every server serving a sequence of 3
pages in which each page except the last carries a `<collection>_links`
entry with rel "next" (and the last carries no links key),
`list(collection, path, retrieve_all=True)` issues exactly 3 GET requests
and returns the collection mapped to the concatenation of the 3 pages'
items in page order — for every fuel bound of at least 3 iterations. -/
theorem C5_pagination_three_pages (server : String → Nat → Params → PyVal)
    (hrefToParams : String → Params) (collection path : String)
    (params0 q1 q2 : Params) (d0 d1 d2 : List (String × PyVal))
    (items0 items1 items2 : List PyVal) (h0 h1 : String) (fuel : Nat)
    (hpr : truthy ((dictGet params0 "page_reverse").getD (.bool false)) =
      false)
    (hs0 : server path 0 params0 = .dict d0)
    (hs1 : server path 1 q1 = .dict d1)
    (hs2 : server path 2 q2 = .dict d2)
    (hl0 : dictGet d0 (collection ++ "_links") =
      some (.list [.dict [("rel", .str "next"), ("href", .str h0)]]))
    (hl1 : dictGet d1 (collection ++ "_links") =
      some (.list [.dict [("rel", .str "next"), ("href", .str h1)]]))
    (hl2 : dictGet d2 (collection ++ "_links") = Option.none)
    (hq1 : hrefToParams h0 = q1) (hq2 : hrefToParams h1 = q2)
    (hi0 : dictGet d0 collection = some (.list items0))
    (hi1 : dictGet d1 collection = some (.list items1))
    (hi2 : dictGet d2 collection = some (.list items2)) :
    pagination server hrefToParams collection path params0 (fuel + 3) =
      .pages [.dict d0, .dict d1, .dict d2] 3
    ∧ list_retrieve_all server hrefToParams collection path params0
        (fuel + 3) =
      some (.dict [(collection, .list (items0 ++ items1 ++ items2))]) := by
  have hstep0 : page_step hrefToParams collection "next"
      (server path 0 params0) = .more q1 := by
    rw [hs0, page_step_next hrefToParams collection d0 h0 hl0, hq1]
  have hstep1 : page_step hrefToParams collection "next"
      (server path 1 q1) = .more q2 := by
    rw [hs1, page_step_next hrefToParams collection d1 h1 hl1, hq2]
  have hstep2 : page_step hrefToParams collection "next"
      (server path 2 q2) = .stop := by
    rw [hs2]
    exact page_step_no_links hrefToParams collection "next" d2 hl2
  have hgo0 : pagination_go server hrefToParams collection "next" path
      (fuel + 1 + 1 + 1) 0 params0 =
      .pages [server path 0 params0, server path 1 q1,
        server path 2 q2] 3 := by
    simp only [pagination_go_succ, Nat.reduceAdd, hstep0, hstep1, hstep2]
  have hpag : pagination server hrefToParams collection path params0
      (fuel + 3) = .pages [.dict d0, .dict d1, .dict d2] 3 := by
    show pagination server hrefToParams collection path params0
      (fuel + 1 + 1 + 1) = _
    unfold pagination
    rw [hpr]
    simp only [Bool.false_eq_true, if_false]
    rw [hgo0, hs0, hs1, hs2]
  refine ⟨hpag, ?_⟩
  unfold list_retrieve_all
  rw [hpag]
  simp only [collect_items, hi0, hi1, hi2, Option.map_some]
  simp [List.append_assoc]

/-- C5 witness: three concrete pages of a "meas" collection chained by
"next" links, traversed with fuel 3: exactly 3 requests, items
concatenated in page order. -/
theorem C5_pagination_three_pages_witness :
    pagination
      (fun _ n _ =>
        if n = 0 then
          .dict [("meas", .list [.int 1]),
            ("meas_links",
              .list [.dict [("rel", .str "next"), ("href", .str "u0")]])]
        else if n = 1 then
          .dict [("meas", .list [.int 2]),
            ("meas_links",
              .list [.dict [("rel", .str "next"), ("href", .str "u1")]])]
        else .dict [("meas", .list [.int 3])])
      (fun _ => [("marker", .str "m")]) "meas" "/meas" [] 3 =
      .pages
        [.dict [("meas", .list [.int 1]),
          ("meas_links",
            .list [.dict [("rel", .str "next"), ("href", .str "u0")]])],
         .dict [("meas", .list [.int 2]),
          ("meas_links",
            .list [.dict [("rel", .str "next"), ("href", .str "u1")]])],
         .dict [("meas", .list [.int 3])]] 3
    ∧ list_retrieve_all
      (fun _ n _ =>
        if n = 0 then
          .dict [("meas", .list [.int 1]),
            ("meas_links",
              .list [.dict [("rel", .str "next"), ("href", .str "u0")]])]
        else if n = 1 then
          .dict [("meas", .list [.int 2]),
            ("meas_links",
              .list [.dict [("rel", .str "next"), ("href", .str "u1")]])]
        else .dict [("meas", .list [.int 3])])
      (fun _ => [("marker", .str "m")]) "meas" "/meas" [] 3 =
      some (.dict [("meas", .list [.int 1, .int 2, .int 3])]) :=
  C5_pagination_three_pages
    (fun _ n _ =>
      if n = 0 then
        .dict [("meas", .list [.int 1]),
          ("meas_links",
            .list [.dict [("rel", .str "next"), ("href", .str "u0")]])]
      else if n = 1 then
        .dict [("meas", .list [.int 2]),
          ("meas_links",
            .list [.dict [("rel", .str "next"), ("href", .str "u1")]])]
      else .dict [("meas", .list [.int 3])])
    (fun _ => [("marker", .str "m")]) "meas" "/meas"
    [] [("marker", .str "m")] [("marker", .str "m")]
    [("meas", .list [.int 1]),
      ("meas_links",
        .list [.dict [("rel", .str "next"), ("href", .str "u0")]])]
    [("meas", .list [.int 2]),
      ("meas_links",
        .list [.dict [("rel", .str "next"), ("href", .str "u1")]])]
    [("meas", .list [.int 3])]
    [.int 1] [.int 2] [.int 3] "u0" "u1" 0
    rfl rfl rfl rfl rfl rfl rfl rfl rfl rfl rfl rfl

/-- C6: the pagination loop stops after a page with no
`<collection>_links` key, or whose link list has no entry with rel equal
to the active direction; concretely, for collection "events" with a
first response carrying only the "events" key, exactly 1 request is
issued and the result is that one page's items. -/
theorem C6_pagination_termination :
    (∀ (hrefToParams : String → Params) (collection linkrel : String)
        (d : List (String × PyVal)),
      dictGet d (collection ++ "_links") = Option.none →
      page_step hrefToParams collection linkrel (.dict d) = .stop)
    ∧ (∀ (hrefToParams : String → Params) (linkrel : String)
          (links : List PyVal),
        (∀ l ∈ links, ∃ dl relv, l = .dict dl ∧
          dictGet dl "rel" = some relv ∧ eqStr relv linkrel = false) →
        scan_links hrefToParams linkrel links = .stop)
    ∧ (∀ (server : String → Nat → Params → PyVal)
          (hrefToParams : String → Params) (path : String)
          (params0 : Params) (items : List PyVal) (fuel : Nat),
        truthy ((dictGet params0 "page_reverse").getD (.bool false)) =
          false →
        server path 0 params0 = .dict [("events", .list items)] →
        pagination server hrefToParams "events" path params0 (fuel + 1) =
          .pages [.dict [("events", .list items)]] 1
        ∧ list_retrieve_all server hrefToParams "events" path params0
            (fuel + 1) = some (.dict [("events", .list items)])) := by
  refine ⟨page_step_no_links, ?_, ?_⟩
  · intro hrefToParams linkrel links
    induction links with
    | nil => intro _; rfl
    | cons l rest ih =>
      intro h
      obtain ⟨dl, relv, rfl, hrel, hne⟩ := h l (List.mem_cons_self l rest)
      simp only [scan_links, hrel, hne]
      exact ih (fun x hx => h x (List.mem_cons_of_mem _ hx))
  · intro server hrefToParams path params0 items fuel hpr hserver
    have hstep : page_step hrefToParams "events" "next"
        (server path 0 params0) = .stop := by
      rw [hserver]
      rfl
    have hpag : pagination server hrefToParams "events" path params0
        (fuel + 1) = .pages [.dict [("events", .list items)]] 1 := by
      unfold pagination
      rw [hpr]
      simp only [Bool.false_eq_true, if_false]
      rw [pagination_go_succ, hstep, hserver]
    refine ⟨hpag, ?_⟩
    unfold list_retrieve_all
    rw [hpag]
    have hcol : collect_items "events" [.dict [("events", .list items)]] =
        some (items ++ []) := rfl
    simp [hcol]

/-- C6 witness: the concrete "events" scenario with one item and fuel 1:
one request, result equal to the single page's items. -/
theorem C6_pagination_termination_witness :
    pagination (fun _ _ _ => .dict [("events", .list [.int 7])])
        (fun _ => []) "events" "/events" [] 1 =
      .pages [.dict [("events", .list [.int 7])]] 1
    ∧ list_retrieve_all (fun _ _ _ => .dict [("events", .list [.int 7])])
        (fun _ => []) "events" "/events" [] 1 =
      some (.dict [("events", .list [.int 7])]) :=
  C6_pagination_termination.2.2
    (fun _ _ _ => .dict [("events", .list [.int 7])]) (fun _ => [])
    "/events" [] [.int 7] 0 rfl rfl

/-- C10: for an API method wrapped by `APIParamsCall` and called with a
`format` keyword argument: when the wrapped call returns normally the
session format is restored to its pre-call value, but when the wrapped
call raises (leaving the format where it set it), the session format
stays at the override value and is not restored. -/
theorem C10_format_restore (f : String → Except RaisedExc PyVal × String)
    (fmt fmt0 : String) :
    (∀ v s2, f fmt = (Except.ok v, s2) →
      with_params f (some fmt) fmt0 = (Except.ok v, fmt0))
    ∧ (∀ e, f fmt = (Except.error e, fmt) →
        with_params f (some fmt) fmt0 = (Except.error e, fmt)) := by
  constructor
  · intro v s2 hf
    simp [with_params, hf]
  · intro e hf
    simp [with_params, hf]

/-- C10 witness: with the session format "json" and an override "xml",
a normal return restores "json" while a raising call leaves "xml". -/
theorem C10_format_restore_witness :
    with_params (fun s => (Except.ok (.str "r"), s)) (some "xml") "json" =
      (Except.ok (.str "r"), "json")
    ∧ with_params
        (fun s => (Except.error ⟨.generic, 500, .str "boom"⟩, s))
        (some "xml") "json" =
      (Except.error ⟨.generic, 500, .str "boom"⟩, "xml") :=
  ⟨(C10_format_restore (fun s => (Except.ok (.str "r"), s)) "xml"
      "json").1 (.str "r") "xml" rfl,
   (C10_format_restore
      (fun s => (Except.error ⟨.generic, 500, .str "boom"⟩, s)) "xml"
      "json").2 ⟨.generic, 500, .str "boom"⟩ rfl⟩

end Apmec
